import Mathlib

/-!
Shallow embedding of the `optimizers` repository (AdaBound, AdamP, AdaMod).

Tensors are modelled as lists of real numbers (matrices as lists of rows for
AdamP, whose projection helper views parameters two ways).  Each optimizer
object is a structure holding its hyperparameters and its per-parameter state
lists, mirroring the Python attributes.  `update_step` is translated
statement by statement; the sparse-gradient check of AdaBound/AdaMod appears
first, exactly as in the source, and an update that raises returns the state
reached at the raise point together with the error message.  The Keras base
class's `iterations` counter (read by `get_config`, never written inside this
repository's code) is carried as an ordinary field that the translated
methods leave untouched.
-/

abbrev Tensor := List ℝ

abbrev Tensor2 := List (List ℝ)

/-- A gradient as handed over by the host: its dense values together with the
flag `tf.keras.backend.is_sparse` reports. -/
structure Grad where
  values : Tensor
  isSparse : Bool

/-- Result of one `update_step` call: the optimizer state and parameter after
the call, plus the error message when the call raised. -/
structure StepResult (σ τ : Type) where
  opt : σ
  var : τ
  err : Option String

/-- Zeros-like tensor, as built by `add_variable_from_reference`. -/
def zerosLike (v : Tensor) : Tensor := v.map (fun _ => 0)

/-- Elementwise map over a matrix. -/
def mapT (f : ℝ → ℝ) (t : Tensor2) : Tensor2 := t.map (fun r => r.map f)

/-- Elementwise combination of two matrices. -/
def zipT (f : ℝ → ℝ → ℝ) (a b : Tensor2) : Tensor2 := List.zipWith (List.zipWith f) a b

/-- Zeros-like matrix. -/
def zerosLikeT (v : Tensor2) : Tensor2 := mapT (fun _ => 0) v

/-- Value of `tf.clip_by_value x lo hi`. -/
noncomputable def clip_by_value (x lo hi : ℝ) : ℝ := min (max x lo) hi

/-- Bias correction term `1 - beta ** step` computed by all three update
rules. -/
noncomputable def bias_correction (beta : ℝ) (step : Nat) : ℝ := 1 - beta ^ step

/-- The denominator `tf.sqrt(exp_avg_sq) + epsilon` of AdaBound and AdaMod. -/
noncomputable def adam_denom (t : Tensor) (eps : ℝ) : Tensor :=
  t.map (fun v => Real.sqrt v + eps)

/-- Sparse-gradient message raised by `AdaBound.update_step`. -/
def adabound_sparse_msg : String :=
  "AdaBound does not support sparse gradients, please consider SparseAdam instead"

/-- Sparse-gradient message raised by `AdaMod.update_step`. -/
def adamod_sparse_msg : String :=
  "Adam does not support sparse gradients, please consider SparseAdam instead"

/-- AdaBound bound scaling `final_lr * lr / base_lr` (adabound.py line 119). -/
noncomputable def final_lr_eff (final_lr lr base_lr : ℝ) : ℝ := final_lr * lr / base_lr

/-- AdaBound `lower_bound` (adabound.py line 120). -/
noncomputable def lower_bound (flr gamma : ℝ) (step : Nat) : ℝ :=
  flr * (1 - 1 / (gamma * step + 1))

/-- AdaBound `upper_bound` (adabound.py line 121). -/
noncomputable def upper_bound (flr gamma : ℝ) (step : Nat) : ℝ :=
  flr * (1 + 1 / (gamma * step))

/-- The AdaBound optimizer object: hyperparameters set by the constructor and
the state attributes created by `build`. -/
structure AdaBound where
  learning_rate : ℝ
  beta1 : ℝ
  beta2 : ℝ
  epsilon : ℝ
  weight_decay : ℝ
  final_lr : ℝ
  gamma : ℝ
  amsbound : Bool
  built : Bool
  exp_avg : List Tensor
  exp_avg_sq : List Tensor
  max_exp_avg_sq : List Tensor
  step : List Nat
  base_lr : ℝ
  iterations : Nat

/-- Translation of `AdaBound.__setstate__`: the restored attribute dictionary
is installed, then `amsbound` is overwritten with `False`. -/
def AdaBound.setstate (state : AdaBound) : AdaBound := { state with amsbound := false }

/-- Translation of `AdaBound.build`: returns immediately when already built,
otherwise allocates zero state per variable and records `base_lr`. -/
def AdaBound.build (o : AdaBound) (var_list : List Tensor) : AdaBound :=
  if o.built then o
  else
    { o with
      built := true
      exp_avg := var_list.map zerosLike
      exp_avg_sq := var_list.map zerosLike
      max_exp_avg_sq := if o.amsbound then var_list.map zerosLike else o.max_exp_avg_sq
      base_lr := o.learning_rate
      step := var_list.map (fun _ => 0) }

/-- Translation of `AdaBound.update_step` (adabound.py lines 85-127).  The
parameter index stands for `self._get_variable_index(variable)`. -/
noncomputable def AdaBound.update_step (o : AdaBound) (gradient : Grad) (param : Tensor)
    (lr : ℝ) (idx : Nat) : StepResult AdaBound Tensor :=
  if gradient.isSparse then ⟨o, param, some adabound_sparse_msg⟩
  else
    let exp_avg := o.exp_avg.getD idx []
    let exp_avg_sq := o.exp_avg_sq.getD idx []
    let max_exp_avg_sq := o.max_exp_avg_sq.getD idx []
    let step := o.step.getD idx 0 + 1
    let grad := if o.weight_decay ≠ 0 then
        List.zipWith (fun g p => g + o.weight_decay * p) gradient.values param
      else gradient.values
    let exp_avg1 := List.zipWith (fun m g => o.beta1 * m + (1 - o.beta1) * g) exp_avg grad
    let exp_avg_sq1 := List.zipWith (fun v g => o.beta2 * v + (1 - o.beta2) * g ^ 2) exp_avg_sq grad
    let max1 := if o.amsbound then List.zipWith max max_exp_avg_sq exp_avg_sq1 else max_exp_avg_sq
    let denom := if o.amsbound then adam_denom max1 o.epsilon else adam_denom exp_avg_sq1 o.epsilon
    let step_size0 := lr * Real.sqrt (bias_correction o.beta2 step) / bias_correction o.beta1 step
    let flr := final_lr_eff o.final_lr lr o.base_lr
    let fill := denom.map (fun _ => step_size0)
    let step_size1 := List.zipWith (fun a b => a / b) fill denom
    let step_size2 := step_size1.map (fun x =>
      clip_by_value x (lower_bound flr o.gamma step) (upper_bound flr o.gamma step))
    let step_size3 := List.zipWith (fun a b => a * b) step_size2 exp_avg1
    let param1 := List.zipWith (fun p s => p + -s) param step_size3
    ⟨{ o with
        exp_avg := o.exp_avg.set idx exp_avg1
        exp_avg_sq := o.exp_avg_sq.set idx exp_avg_sq1
        max_exp_avg_sq := if o.amsbound then o.max_exp_avg_sq.set idx max1 else o.max_exp_avg_sq
        step := o.step.set idx step },
      param1, none⟩

/-- The `step` entry produced by `AdaBound.get_config`: the Keras
`iterations` counter repeated once per parameter (adabound.py line 139). -/
def AdaBound.config_step (o : AdaBound) : List Nat :=
  List.replicate o.step.length o.iterations

/-- Largest finite float32 value, `float(np.finfo(np.float32).max)`, the cap
used by the module-level `clip` helper of adamp.py for float tensors. -/
def float32_max : ℝ := 340282346638528859811704183484516925440

/-- Translation of adamp.py's module-level `clip(x, min)`: clip below at `m`
and above at the dtype's largest value. -/
noncomputable def AdamP.clip (x m : ℝ) : ℝ := clip_by_value x m float32_max

/-- Row dot product, `tf.reduce_sum(tf.multiply(x1, x2), axis=1)` for one
row. -/
def dot (r1 r2 : List ℝ) : ℝ := (List.zipWith (fun a b => a * b) r1 r2).sum

/-- The floored denominator `sqrt(clip(w1 * w2, eps * eps))` of
`cosine_similarity`. -/
noncomputable def cos_denominator (w1w2 eps : ℝ) : ℝ :=
  Real.sqrt (AdamP.clip w1w2 (eps * eps))

/-- Translation of adamp.py's `cosine_similarity` with `axis=1`: one cosine
per row of the two views. -/
noncomputable def cosine_similarity (x1 x2 : Tensor2) (eps : ℝ) : List ℝ :=
  List.zipWith (fun r1 r2 => dot r1 r2 / cos_denominator (dot r1 r1 * dot r2 r2) eps) x1 x2

/-- Translation of `_channel_view`: `reshape(x, (x.shape[0], -1))`, the
identity on our first-axis-by-flattened-rest matrices. -/
def channel_view (x : Tensor2) : Tensor2 := x

/-- Translation of `_layer_view`: `reshape(x, (1, -1))`. -/
def layer_view (x : Tensor2) : Tensor2 := [x.flatten]

/-- Width of a view, `param_view.shape[1]`. -/
def view_width (x : Tensor2) : Nat := (x.headD []).length

/-- Value of `tf.reduce_max` on a vector (the source only applies it to
nonempty cosine vectors). -/
noncomputable def reduce_max (l : List ℝ) : ℝ :=
  match l with
  | [] => 0
  | x :: xs => xs.foldl max x

/-- Per-row Euclidean norms, `tf.norm(view, ord=2, axis=1)`. -/
noncomputable def row_norms (x : Tensor2) : List ℝ := x.map (fun r => Real.sqrt (dot r r))

/-- The epsilon-shifted norm by which `projection` divides the parameter. -/
noncomputable def norm_divisor (n eps : ℝ) : ℝ := n + eps

/-- The body of `projection`'s triggered branch for the channel view: divide
each row of `p` by its shifted norm, then remove from `perturb` its per-row
component along the normalized parameter. -/
noncomputable def channel_correct (p perturb : Tensor2) (eps : ℝ) : Tensor2 :=
  let p_n := List.zipWith (fun r n => r.map (fun a => a / norm_divisor n eps))
    p (row_norms (channel_view p))
  let s := (zipT (fun a b => a * b) p_n perturb).map (fun r => r.sum)
  List.zipWith (fun pr pns => List.zipWith (fun pe pn => pe - pn * pns.2) pr pns.1)
    perturb (p_n.zip s)

/-- The body of `projection`'s triggered branch for the layer view: the norm
and the inner product are taken over the whole flattened parameter and
broadcast back. -/
noncomputable def layer_correct (p perturb : Tensor2) (eps : ℝ) : Tensor2 :=
  let p_n := mapT (fun a => a / norm_divisor (Real.sqrt (dot p.flatten p.flatten)) eps) p
  let s := ((zipT (fun a b => a * b) p_n perturb).flatten).sum
  zipT (fun pe pn => pe - pn * s) perturb p_n

/-- Translation of adamp.py's `projection` (lines 48-63): the channel view is
tried first, then the layer view; the first view whose maximal absolute
cosine similarity falls below `delta / sqrt(view width)` wins; if neither
triggers, `perturb` is returned unchanged with `wd = 1`. -/
noncomputable def projection (p grad perturb : Tensor2) (delta wd_ratio eps : ℝ) :
    Tensor2 × ℝ :=
  if reduce_max ((cosine_similarity (channel_view grad) (channel_view p) eps).map
        (fun c => |c|)) < delta / Real.sqrt (view_width (channel_view p) : ℝ) then
    (channel_correct p perturb eps, wd_ratio)
  else if reduce_max ((cosine_similarity (layer_view grad) (layer_view p) eps).map
        (fun c => |c|)) < delta / Real.sqrt (view_width (layer_view p) : ℝ) then
    (layer_correct p perturb eps, wd_ratio)
  else
    (perturb, 1)

/-- The AdamP denominator `tf.sqrt(exp_avg_sq) / math.sqrt(bias_correction2)
+ epsilon` (adamp.py line 141). -/
noncomputable def adamp_denom (exp_avg_sq : Tensor2) (bc2 eps : ℝ) : Tensor2 :=
  mapT (fun v => Real.sqrt v / Real.sqrt bc2 + eps) exp_avg_sq

/-- The AdamP optimizer object. -/
structure AdamP where
  learning_rate : ℝ
  beta1 : ℝ
  beta2 : ℝ
  epsilon : ℝ
  weight_decay : ℝ
  delta : ℝ
  wd_ratio : ℝ
  nesterov : Bool
  built : Bool
  exp_avg : List Tensor2
  exp_avg_sq : List Tensor2
  step : List Nat
  iterations : Nat

/-- Translation of `AdamP.build`: returns immediately when already built,
otherwise allocates zero state per variable. -/
def AdamP.build (o : AdamP) (var_list : List Tensor2) : AdamP :=
  if o.built then o
  else
    { o with
      built := true
      exp_avg := var_list.map zerosLikeT
      exp_avg_sq := var_list.map zerosLikeT
      step := var_list.map (fun _ => 0) }

/-- Translation of `AdamP.update_step` (adamp.py lines 129-159).  `ndims`
stands for `len(variable.shape)`; the matrix carried alongside is the
parameter under the channel view (first axis by flattened rest). -/
noncomputable def AdamP.update_step (o : AdamP) (gradient : Tensor2) (param : Tensor2)
    (ndims : Nat) (lr : ℝ) (idx : Nat) : AdamP × Tensor2 :=
  let exp_avg := o.exp_avg.getD idx []
  let exp_avg_sq := o.exp_avg_sq.getD idx []
  let step := o.step.getD idx 0 + 1
  let ea := zipT (fun m g => m * o.beta1 + g * (1 - o.beta1)) exp_avg gradient
  let eas := zipT (fun v g => v * o.beta2 + g * g * (1 - o.beta2)) exp_avg_sq gradient
  let denom := adamp_denom eas (bias_correction o.beta2 step) o.epsilon
  let step_size := lr / bias_correction o.beta1 step
  let perturb0 :=
    if o.nesterov then
      zipT (fun a b => a / b) (zipT (fun m g => o.beta1 * m + (1 - o.beta1) * g) ea gradient) denom
    else zipT (fun a b => a / b) ea denom
  let pw := if ndims > 1 then projection param gradient perturb0 o.delta o.wd_ratio o.epsilon
    else (perturb0, 1)
  let param1 := if o.weight_decay > 0 then
      mapT (fun x => x * (1 - lr * o.weight_decay * pw.2)) param
    else param
  let param2 := zipT (fun x pe => x + pe * (-step_size)) param1 pw.1
  ({ o with
      exp_avg := o.exp_avg.set idx ea
      exp_avg_sq := o.exp_avg_sq.set idx eas
      step := o.step.set idx step },
    param2)

/-- The `step` entry produced by `AdamP.get_config`: the Keras `iterations`
counter repeated once per parameter (adamp.py line 171). -/
def AdamP.config_step (o : AdamP) : List Nat :=
  List.replicate o.step.length o.iterations

/-- AdaMod's elementwise raw step sizes: `tf.fill(denom.shape, step_size)`
divided by `denom` (adamod.py lines 104-105). -/
noncomputable def adamod_raw (denom : Tensor) (step_size0 : ℝ) : Tensor :=
  List.zipWith (fun a b => a / b) (denom.map (fun _ => step_size0)) denom

/-- AdaMod's updated learning-rate average `beta3 * exp_avg_lr +
(1 - beta3) * step_size` (adamod.py line 106). -/
noncomputable def adamod_exp_avg_lr (beta3 : ℝ) (exp_avg_lr raw : Tensor) : Tensor :=
  List.zipWith (fun e r => beta3 * e + (1 - beta3) * r) exp_avg_lr raw

/-- AdaMod's capped step sizes `tf.minimum(step_size, exp_avg_lr)`
(adamod.py line 107). -/
noncomputable def adamod_capped (raw ealr : Tensor) : Tensor :=
  List.zipWith min raw ealr

/-- The AdaMod optimizer object.  Its `step` counter is a single scalar
shared across all parameters; the multiprocessing manager that re-wraps the
state lists is host-ecosystem scaffolding carrying no values of its own. -/
structure AdaMod where
  learning_rate : ℝ
  beta1 : ℝ
  beta2 : ℝ
  beta3 : ℝ
  epsilon : ℝ
  weight_decay : ℝ
  built : Bool
  exp_avg : List Tensor
  exp_avg_sq : List Tensor
  exp_avg_lr : List Tensor
  step : Nat
  iterations : Nat

/-- Translation of `AdaMod.build`: when already built it only re-wraps the
three state lists in a fresh manager proxy (their contents unchanged),
otherwise it allocates zero state and the shared counter. -/
def AdaMod.build (o : AdaMod) (var_list : List Tensor) : AdaMod :=
  if o.built then
    { o with
      exp_avg := o.exp_avg
      exp_avg_sq := o.exp_avg_sq
      exp_avg_lr := o.exp_avg_lr }
  else
    { o with
      built := true
      exp_avg := var_list.map zerosLike
      exp_avg_sq := var_list.map zerosLike
      exp_avg_lr := var_list.map zerosLike
      step := 0 }

/-- Translation of `AdaMod.update_step` (adamod.py lines 77-110). -/
noncomputable def AdaMod.update_step (o : AdaMod) (gradient : Grad) (param : Tensor)
    (lr : ℝ) (idx : Nat) : StepResult AdaMod Tensor :=
  if gradient.isSparse then ⟨o, param, some adamod_sparse_msg⟩
  else
    let exp_avg := o.exp_avg.getD idx []
    let exp_avg_sq := o.exp_avg_sq.getD idx []
    let exp_avg_lr := o.exp_avg_lr.getD idx []
    let step := o.step + 1
    let ea := List.zipWith (fun m g => o.beta1 * m + (1 - o.beta1) * g) exp_avg gradient.values
    let eas := List.zipWith (fun v g => o.beta2 * v + (1 - o.beta2) * g ^ 2)
      exp_avg_sq gradient.values
    let denom := adam_denom eas o.epsilon
    let step_size0 := lr * Real.sqrt (bias_correction o.beta2 step) / bias_correction o.beta1 step
    let param1 := if o.weight_decay ≠ 0 then
        param.map (fun x => x + -(o.weight_decay * lr * x))
      else param
    let raw := adamod_raw denom step_size0
    let ealr := adamod_exp_avg_lr o.beta3 exp_avg_lr raw
    let capped := adamod_capped raw ealr
    let dlt := List.zipWith (fun c m => c * m) capped ea
    let param2 := List.zipWith (fun x d => x + -d) param1 dlt
    ⟨{ o with
        exp_avg := o.exp_avg.set idx ea
        exp_avg_sq := o.exp_avg_sq.set idx eas
        exp_avg_lr := o.exp_avg_lr.set idx ealr
        step := step },
      param2, none⟩

/-- The `step` entry produced by `AdaMod.get_config`: the Keras `iterations`
counter (adamod.py line 121). -/
def AdaMod.config_step (o : AdaMod) : Nat := o.iterations

/-- Folding a list of host-supplied `(gradient, parameter, lr, index)` calls
through `AdaBound.update_step`, keeping the optimizer state. -/
noncomputable def AdaBound.run (o : AdaBound) : List (Grad × Tensor × ℝ × Nat) → AdaBound
  | [] => o
  | c :: cs => AdaBound.run (o.update_step c.1 c.2.1 c.2.2.1 c.2.2.2).opt cs

/-- Folding a list of host-supplied `(gradient, parameter, ndims, lr, index)`
calls through `AdamP.update_step`. -/
noncomputable def AdamP.run (o : AdamP) : List (Tensor2 × Tensor2 × Nat × ℝ × Nat) → AdamP
  | [] => o
  | c :: cs => AdamP.run (o.update_step c.1 c.2.1 c.2.2.1 c.2.2.2.1 c.2.2.2.2).1 cs

/-- Folding a list of host-supplied `(gradient, parameter, lr, index)` calls
through `AdaMod.update_step`. -/
noncomputable def AdaMod.run (o : AdaMod) : List (Grad × Tensor × ℝ × Nat) → AdaMod
  | [] => o
  | c :: cs => AdaMod.run (o.update_step c.1 c.2.1 c.2.2.1 c.2.2.2).opt cs

/-- A built single-parameter AdaBound instance used to instantiate theorems
at concrete inputs. -/
def adabound_w : AdaBound :=
  { learning_rate := 1, beta1 := 0, beta2 := 0, epsilon := 1, weight_decay := 0,
    final_lr := 1, gamma := 1, amsbound := false, built := true,
    exp_avg := [[0]], exp_avg_sq := [[0]], max_exp_avg_sq := [], step := [0],
    base_lr := 1, iterations := 0 }

/-- A built two-parameter AdaBound instance used to instantiate theorems at
concrete inputs. -/
def adabound_w2 : AdaBound :=
  { learning_rate := 1, beta1 := 0, beta2 := 0, epsilon := 1, weight_decay := 0,
    final_lr := 1, gamma := 1, amsbound := false, built := true,
    exp_avg := [[0], [0]], exp_avg_sq := [[0], [0]], max_exp_avg_sq := [],
    step := [0, 0], base_lr := 1, iterations := 0 }

/-- A built two-parameter AdaMod instance used to instantiate theorems at
concrete inputs. -/
def adamod_w : AdaMod :=
  { learning_rate := 1, beta1 := 0, beta2 := 0, beta3 := 0, epsilon := 1,
    weight_decay := 0, built := true, exp_avg := [[0], [0]],
    exp_avg_sq := [[0], [0]], exp_avg_lr := [[0], [0]], step := 0, iterations := 0 }

/-- The two-parameter AdaBound state after two dense `update_step` calls that
both address parameter 0 and none that addresses parameter 1. -/
noncomputable def adabound_after_two_calls : AdaBound :=
  ((adabound_w2.update_step ⟨[1], false⟩ [1] 1 0).opt.update_step ⟨[1], false⟩ [1] 1 0).opt

/-- The two-parameter AdaMod state after one dense `update_step` call per
parameter, that is after one optimizer-wide pass. -/
noncomputable def adamod_after_one_pass : AdaMod :=
  ((adamod_w.update_step ⟨[1], false⟩ [1] 1 0).opt.update_step ⟨[1], false⟩ [1] 1 1).opt

/-!  Claim-side rendering of the AdaBound update (claim C1 / spec section
4.1), to be compared with the translation of the source. -/

/-- Written from the words of the spec for one AdaBound update with
`amsbound = false`: `step += 1`; weight decay folded into the gradient when
nonzero; the two moment updates; `denom = sqrt(exp_avg_sq) + epsilon`;
`step_size_scalar = lr * sqrt(1 - beta2^step) / (1 - beta1^step)`;
`final_lr_eff = final_lr * lr / base_lr` with the two dynamic bounds; and
elementwise `p = p - clip(step_size_scalar / denom, lower, upper) *
exp_avg`. -/
noncomputable def AdaBound.spec_update (o : AdaBound) (g param : Tensor) (lr : ℝ)
    (idx : Nat) : StepResult AdaBound Tensor :=
  let exp_avg := o.exp_avg.getD idx []
  let exp_avg_sq := o.exp_avg_sq.getD idx []
  let step1 := o.step.getD idx 0 + 1
  let g1 := if o.weight_decay ≠ 0 then
      List.zipWith (fun gi pi => gi + o.weight_decay * pi) g param
    else g
  let ea := List.zipWith (fun m gi => o.beta1 * m + (1 - o.beta1) * gi) exp_avg g1
  let eas := List.zipWith (fun v gi => o.beta2 * v + (1 - o.beta2) * gi ^ 2) exp_avg_sq g1
  let sss := lr * Real.sqrt (1 - o.beta2 ^ step1) / (1 - o.beta1 ^ step1)
  let fle := o.final_lr * lr / o.base_lr
  let lower := fle * (1 - 1 / (o.gamma * step1 + 1))
  let upper := fle * (1 + 1 / (o.gamma * step1))
  let p1 := List.zipWith (fun pi de => pi - de) param
    (List.zipWith (fun d e => clip_by_value (sss / (Real.sqrt d + o.epsilon)) lower upper * e)
      eas ea)
  ⟨{ o with
      exp_avg := o.exp_avg.set idx ea
      exp_avg_sq := o.exp_avg_sq.set idx eas
      step := o.step.set idx step1 },
    p1, none⟩

/-- C1: with a dense gradient and `amsbound = false`, one `AdaBound.update_step`
call produces exactly the state and parameter given by the claim's closed
formulas. -/
theorem adabound_update_step_matches_spec (o : AdaBound) (g param : Tensor) (lr : ℝ)
    (idx : Nat) (hams : o.amsbound = false) :
    AdaBound.update_step o ⟨g, false⟩ param lr idx = AdaBound.spec_update o g param lr idx := by
  simp only [AdaBound.update_step, AdaBound.spec_update, hams, if_false, Bool.false_eq_true,
    adam_denom, bias_correction, final_lr_eff, lower_bound, upper_bound,
    List.zipWith_map_left, List.zipWith_map_right, List.zipWith_same, List.map_map,
    Function.comp]
  simp [sub_eq_add_neg]

/-- Witness for C1 at a concrete built optimizer, gradient and parameter. -/
theorem adabound_update_step_matches_spec_witness :
    AdaBound.update_step adabound_w ⟨[1], false⟩ [1] 1 0 =
      AdaBound.spec_update adabound_w [1] [1] 1 0 :=
  adabound_update_step_matches_spec adabound_w [1] [1] 1 0 rfl

/-- C2: for each of the three optimizers, a second `build` call on an already
built optimizer returns the state of the first build unchanged. -/
theorem build_second_call_is_noop :
    (∀ (o : AdaBound) (v1 v2 : List Tensor), (o.build v1).build v2 = o.build v1) ∧
    (∀ (o : AdamP) (v1 v2 : List Tensor2), (o.build v1).build v2 = o.build v1) ∧
    (∀ (o : AdaMod) (v1 v2 : List Tensor), (o.build v1).build v2 = o.build v1) := by
  refine ⟨fun o v1 v2 => ?_, fun o v1 v2 => ?_, fun o v1 v2 => ?_⟩
  · by_cases h : o.built <;> simp [AdaBound.build, h]
  · by_cases h : o.built <;> simp [AdamP.build, h]
  · by_cases h : o.built <;> simp [AdaMod.build, h]

/-- C10: an AdaBound optimizer restored through `__setstate__` has
`amsbound = false` whatever was recorded, and none of its subsequent
`update_step` calls ever touches `max_exp_avg_sq`. -/
theorem adabound_setstate_disables_amsbound (s : AdaBound) (g : Grad) (param : Tensor)
    (lr : ℝ) (idx : Nat) :
    (AdaBound.setstate s).amsbound = false ∧
    ((AdaBound.setstate s).update_step g param lr idx).opt.max_exp_avg_sq =
      s.max_exp_avg_sq := by
  refine ⟨rfl, ?_⟩
  cases hg : g.isSparse <;> simp [AdaBound.setstate, AdaBound.update_step, hg]

/-- C6: with positive `lr`, `gamma`, `final_lr` and `base_lr`, AdaBound's
lower bound is non-decreasing and its upper bound non-increasing over steps
from 1 on, and the lower bound never exceeds the upper bound. -/
theorem adabound_bound_monotonicity (final_lr lr base_lr gamma : ℝ) (s t : Nat)
    (hf : 0 < final_lr) (hl : 0 < lr) (hb : 0 < base_lr) (hg : 0 < gamma)
    (hs : 1 ≤ s) (hst : s ≤ t) :
    lower_bound (final_lr_eff final_lr lr base_lr) gamma s ≤
      lower_bound (final_lr_eff final_lr lr base_lr) gamma t ∧
    upper_bound (final_lr_eff final_lr lr base_lr) gamma t ≤
      upper_bound (final_lr_eff final_lr lr base_lr) gamma s ∧
    lower_bound (final_lr_eff final_lr lr base_lr) gamma s ≤
      upper_bound (final_lr_eff final_lr lr base_lr) gamma s := by
  have hF : 0 < final_lr_eff final_lr lr base_lr := by
    unfold final_lr_eff
    exact div_pos (mul_pos hf hl) hb
  have hsr : (1:ℝ) ≤ (s:ℝ) := by exact_mod_cast hs
  have hstr : (s:ℝ) ≤ (t:ℝ) := by exact_mod_cast hst
  have hgs : 0 < gamma * (s:ℝ) := mul_pos hg (lt_of_lt_of_le one_pos hsr)
  have hgs1 : 0 < gamma * (s:ℝ) + 1 := by linarith
  have hmul : gamma * (s:ℝ) ≤ gamma * (t:ℝ) := mul_le_mul_of_nonneg_left hstr hg.le
  refine ⟨?_, ?_, ?_⟩
  · unfold lower_bound
    apply mul_le_mul_of_nonneg_left _ hF.le
    have h1 : 1 / (gamma * (t:ℝ) + 1) ≤ 1 / (gamma * (s:ℝ) + 1) :=
      one_div_le_one_div_of_le hgs1 (by linarith)
    linarith
  · unfold upper_bound
    apply mul_le_mul_of_nonneg_left _ hF.le
    have h1 : 1 / (gamma * (t:ℝ)) ≤ 1 / (gamma * (s:ℝ)) :=
      one_div_le_one_div_of_le hgs hmul
    linarith
  · unfold lower_bound upper_bound
    apply mul_le_mul_of_nonneg_left _ hF.le
    have h1 : 0 ≤ 1 / (gamma * (s:ℝ) + 1) := by positivity
    have h2 : 0 ≤ 1 / (gamma * (s:ℝ)) := by positivity
    linarith

/-- Witness for C6 with unit hyperparameters at steps 1 and 2. -/
theorem adabound_bound_monotonicity_witness :
    lower_bound (final_lr_eff 1 1 1) 1 1 ≤ lower_bound (final_lr_eff 1 1 1) 1 2 ∧
    upper_bound (final_lr_eff 1 1 1) 1 2 ≤ upper_bound (final_lr_eff 1 1 1) 1 1 ∧
    lower_bound (final_lr_eff 1 1 1) 1 1 ≤ upper_bound (final_lr_eff 1 1 1) 1 1 :=
  adabound_bound_monotonicity 1 1 1 1 1 2 one_pos one_pos one_pos one_pos
    (le_refl 1) one_le_two

/-- Helper: an entry of an elementwise minimum never exceeds the
corresponding entry of its first argument. -/
theorem getD_zipWith_min_le (raw ealr : Tensor) (i : Nat)
    (h : i < (List.zipWith min raw ealr).length) :
    (List.zipWith min raw ealr).getD i 0 ≤ raw.getD i 0 := by
  have hraw : i < raw.length := by
    rw [List.length_zipWith] at h
    exact lt_of_lt_of_le h inf_le_left
  rw [List.getD_eq_getElem _ _ h, List.getD_eq_getElem _ _ hraw, List.getElem_zipWith]
  exact min_le_left _ _

/-- C7: in the AdaMod update, every element of the capped step size
`min(raw, exp_avg_lr)` computed against the freshly updated learning-rate
average is at most the corresponding raw step size. -/
theorem adamod_capped_le_raw (denom ealr0 : Tensor) (ss beta3 : ℝ) (i : Nat)
    (h : i < (adamod_capped (adamod_raw denom ss)
        (adamod_exp_avg_lr beta3 ealr0 (adamod_raw denom ss))).length) :
    (adamod_capped (adamod_raw denom ss)
        (adamod_exp_avg_lr beta3 ealr0 (adamod_raw denom ss))).getD i 0 ≤
      (adamod_raw denom ss).getD i 0 := by
  unfold adamod_capped at h ⊢
  exact getD_zipWith_min_le _ _ i h

/-- Witness for C7 on a one-element tensor. -/
theorem adamod_capped_le_raw_witness :
    (adamod_capped (adamod_raw [2] 5)
        (adamod_exp_avg_lr 0 [3] (adamod_raw [2] 5))).getD 0 0 ≤
      (adamod_raw [2] 5).getD 0 0 :=
  adamod_capped_le_raw [2] [3] 5 0 0
    (by simp [adamod_capped, adamod_raw, adamod_exp_avg_lr])

/-- C9 (amended): all epsilon-guarded denominators stay at or above epsilon:
the AdaBound/AdaMod `sqrt(exp_avg_sq) + epsilon`, the AdamP
`sqrt(exp_avg_sq)/sqrt(bc2) + epsilon`, the floored `cosine_similarity`
denominator, and the shifted parameter norms used by `projection`. -/
theorem epsilon_guarded_denominators (t : Tensor) (t2 p : Tensor2) (bc2 eps x : ℝ)
    (heps : 0 ≤ eps) (hsq : eps * eps ≤ float32_max) :
    (∀ d ∈ adam_denom t eps, eps ≤ d) ∧
    (∀ row ∈ adamp_denom t2 bc2 eps, ∀ d ∈ row, eps ≤ d) ∧
    eps ≤ cos_denominator x eps ∧
    (∀ n ∈ row_norms p, eps ≤ norm_divisor n eps) := by
  refine ⟨?_, ?_, ?_, ?_⟩
  · intro d hd
    unfold adam_denom at hd
    obtain ⟨v, _, rfl⟩ := List.mem_map.mp hd
    have := Real.sqrt_nonneg v
    linarith
  · intro row hrow d hd
    unfold adamp_denom mapT at hrow
    obtain ⟨r, _, rfl⟩ := List.mem_map.mp hrow
    obtain ⟨v, _, rfl⟩ := List.mem_map.mp hd
    have h1 : 0 ≤ Real.sqrt v / Real.sqrt bc2 :=
      div_nonneg (Real.sqrt_nonneg v) (Real.sqrt_nonneg bc2)
    linarith
  · unfold cos_denominator AdamP.clip clip_by_value
    have h1 : eps * eps ≤ min (max x (eps * eps)) float32_max :=
      le_min (le_max_right x (eps * eps)) hsq
    calc eps = Real.sqrt (eps * eps) := (Real.sqrt_mul_self heps).symm
      _ ≤ _ := Real.sqrt_le_sqrt h1
  · intro n hn
    unfold row_norms at hn
    obtain ⟨r, _, rfl⟩ := List.mem_map.mp hn
    unfold norm_divisor
    have := Real.sqrt_nonneg (dot r r)
    linarith

/-- Witness for C9's amended statement with `eps = 1` on one-element
tensors. -/
theorem epsilon_guarded_denominators_witness :
    (∀ d ∈ adam_denom [4] 1, (1:ℝ) ≤ d) ∧
    (∀ row ∈ adamp_denom [[4]] 1 1, ∀ d ∈ row, (1:ℝ) ≤ d) ∧
    (1:ℝ) ≤ cos_denominator 0 1 ∧
    (∀ n ∈ row_norms [[4]], (1:ℝ) ≤ norm_divisor n 1) :=
  epsilon_guarded_denominators [4] [[4]] [[4]] 1 1 0 zero_le_one
    (by norm_num [float32_max])

/-- Counterexample to C9 as stated: the bias-correction divisor
`1 - beta1 ** step` that AdaBound, AdamP and AdaMod all divide by carries no
epsilon, and at `beta1 = 1`, `step = 1` it is 0, below any positive epsilon
such as `1e-8`. -/
theorem bias_correction_divisor_not_guarded :
    bias_correction 1 1 = 0 ∧ (0:ℝ) < 1 / 100000000 ∧
      ¬ ((1:ℝ) / 100000000 ≤ bias_correction 1 1) := by
  norm_num [bias_correction]

/-- C4: a sparse gradient makes `update_step` of AdaBound and AdaMod raise
their sparse-gradient error with the optimizer state and the parameter
returned exactly as they were, while a dense gradient raises no error. -/
theorem sparse_gradient_rejected (o1 : AdaBound) (o2 : AdaMod) (gs gd : Grad)
    (p1 p2 : Tensor) (lr : ℝ) (idx : Nat)
    (hs : gs.isSparse = true) (hd : gd.isSparse = false) :
    o1.update_step gs p1 lr idx = ⟨o1, p1, some adabound_sparse_msg⟩ ∧
    o2.update_step gs p2 lr idx = ⟨o2, p2, some adamod_sparse_msg⟩ ∧
    (o1.update_step gd p1 lr idx).err = none ∧
    (o2.update_step gd p2 lr idx).err = none := by
  refine ⟨?_, ?_, ?_, ?_⟩ <;>
    simp [AdaBound.update_step, AdaMod.update_step, hs, hd]

/-- Witness for C4 at concrete sparse and dense gradients. -/
theorem sparse_gradient_rejected_witness :
    AdaBound.update_step adabound_w ⟨[2], true⟩ [3] 1 0 =
      ⟨adabound_w, [3], some adabound_sparse_msg⟩ ∧
    AdaMod.update_step adamod_w ⟨[2], true⟩ [3] 1 0 =
      ⟨adamod_w, [3], some adamod_sparse_msg⟩ ∧
    (AdaBound.update_step adabound_w ⟨[2], false⟩ [3] 1 0).err = none ∧
    (AdaMod.update_step adamod_w ⟨[2], false⟩ [3] 1 0).err = none :=
  sparse_gradient_rejected adabound_w adamod_w ⟨[2], true⟩ ⟨[2], false⟩ [3] [3] 1 0 rfl rfl

/-- Helper: reading back the written position of `List.set`. -/
theorem getD_set_self (l : List Nat) (i : Nat) (h : i < l.length) (v : Nat) :
    (l.set i v).getD i 0 = v := by
  rw [List.getD_eq_getElem?_getD, List.getElem?_set_self h]
  rfl

/-- Helper: `List.set` leaves every other position unchanged. -/
theorem getD_set_other (l : List Nat) (i j v : Nat) (h : j ≠ i) :
    (l.set i v).getD j 0 = l.getD j 0 := by
  rw [List.getD_eq_getElem?_getD, List.getD_eq_getElem?_getD,
    List.getElem?_set_ne (fun he => h he.symm)]

/-- C5 (amended): a dense AdaBound or AdamP `update_step` call increments
exactly the addressed parameter's counter by one and no other, while every
dense AdaMod `update_step` call increments the single shared counter by one —
that is, once per parameter update, not once per optimizer-wide pass. -/
theorem step_counters_per_update_call :
    (∀ (o : AdaBound) (g : Grad) (param : Tensor) (lr : ℝ) (idx : Nat),
      g.isSparse = false → idx < o.step.length →
        (o.update_step g param lr idx).opt.step.getD idx 0 = o.step.getD idx 0 + 1 ∧
        ∀ j, j ≠ idx →
          (o.update_step g param lr idx).opt.step.getD j 0 = o.step.getD j 0) ∧
    (∀ (o : AdamP) (g param : Tensor2) (nd : Nat) (lr : ℝ) (idx : Nat),
      idx < o.step.length →
        (o.update_step g param nd lr idx).1.step.getD idx 0 = o.step.getD idx 0 + 1 ∧
        ∀ j, j ≠ idx →
          (o.update_step g param nd lr idx).1.step.getD j 0 = o.step.getD j 0) ∧
    (∀ (o : AdaMod) (g : Grad) (param : Tensor) (lr : ℝ) (idx : Nat),
      g.isSparse = false →
        (o.update_step g param lr idx).opt.step = o.step + 1) := by
  refine ⟨?_, ?_, ?_⟩
  · intro o g param lr idx hg hidx
    constructor
    · simp only [AdaBound.update_step, hg, Bool.false_eq_true, if_false]
      exact getD_set_self _ _ hidx _
    · intro j hj
      simp only [AdaBound.update_step, hg, Bool.false_eq_true, if_false]
      exact getD_set_other _ _ _ _ hj
  · intro o g param nd lr idx hidx
    constructor
    · simp only [AdamP.update_step]
      exact getD_set_self _ _ hidx _
    · intro j hj
      simp only [AdamP.update_step]
      exact getD_set_other _ _ _ _ hj
  · intro o g param lr idx hg
    simp [AdaMod.update_step, hg]

/-- Counterexample to C5's AdaMod clause as stated: after a single
optimizer-wide pass over the two parameters (one dense `update_step` call
each), the shared counter holds 2, not the 1 that once-per-optimizer-wide
incrementing would give. -/
theorem adamod_counter_counterexample :
    adamod_after_one_pass.step = 2 ∧ (2:Nat) ≠ 1 := by
  constructor
  · rfl
  · decide

/-- Helper: `AdaBound.update_step` never changes `iterations` or the number
of per-parameter counters. -/
theorem adabound_update_step_preserves (o : AdaBound) (g : Grad) (param : Tensor)
    (lr : ℝ) (idx : Nat) :
    (o.update_step g param lr idx).opt.iterations = o.iterations ∧
    (o.update_step g param lr idx).opt.step.length = o.step.length := by
  cases hg : g.isSparse <;> simp [AdaBound.update_step, hg]

/-- Helper: `AdamP.update_step` never changes `iterations` or the number of
per-parameter counters. -/
theorem adamp_update_step_preserves (o : AdamP) (g param : Tensor2) (nd : Nat)
    (lr : ℝ) (idx : Nat) :
    (o.update_step g param nd lr idx).1.iterations = o.iterations ∧
    (o.update_step g param nd lr idx).1.step.length = o.step.length := by
  simp [AdamP.update_step]

/-- Helper: `AdaMod.update_step` never changes `iterations` or the number of
state slots. -/
theorem adamod_update_step_preserves (o : AdaMod) (g : Grad) (param : Tensor)
    (lr : ℝ) (idx : Nat) :
    (o.update_step g param lr idx).opt.iterations = o.iterations := by
  cases hg : g.isSparse <;> simp [AdaMod.update_step, hg]

/-- C3 (amended): whatever sequence of `update_step` calls is made, the
`step` entry of `get_config` is the Keras `iterations` counter (replicated
once per parameter for AdaBound and AdamP, a scalar for AdaMod) as it was
before the sequence: the per-parameter counters never reach it. -/
theorem config_step_reports_iterations :
    (∀ (o : AdaBound) (cs : List (Grad × Tensor × ℝ × Nat)),
      (AdaBound.run o cs).config_step = List.replicate o.step.length o.iterations) ∧
    (∀ (o : AdamP) (cs : List (Tensor2 × Tensor2 × Nat × ℝ × Nat)),
      (AdamP.run o cs).config_step = List.replicate o.step.length o.iterations) ∧
    (∀ (o : AdaMod) (cs : List (Grad × Tensor × ℝ × Nat)),
      (AdaMod.run o cs).config_step = o.iterations) := by
  refine ⟨?_, ?_, ?_⟩
  · intro o cs
    induction cs generalizing o with
    | nil => rfl
    | cons c cs ih =>
      rw [AdaBound.run, ih]
      obtain ⟨h1, h2⟩ := adabound_update_step_preserves o c.1 c.2.1 c.2.2.1 c.2.2.2
      rw [h1, h2]
  · intro o cs
    induction cs generalizing o with
    | nil => rfl
    | cons c cs ih =>
      rw [AdamP.run, ih]
      obtain ⟨h1, h2⟩ :=
        adamp_update_step_preserves o c.1 c.2.1 c.2.2.1 c.2.2.2.1 c.2.2.2.2
      rw [h1, h2]
  · intro o cs
    induction cs generalizing o with
    | nil => rfl
    | cons c cs ih =>
      rw [AdaMod.run, ih, adamod_update_step_preserves o c.1 c.2.1 c.2.2.1 c.2.2.2]

/-- Counterexample to C3 as stated: after two dense `update_step` calls for
parameter 0 of a freshly built two-parameter AdaBound, the per-parameter
counters are `[2, 0]` but the `step` entry of `get_config` reads
`[iterations, iterations] = [0, 0]`: its first entry is not the number of
calls made for parameter 0. -/
theorem config_step_counterexample :
    adabound_after_two_calls.step.getD 0 0 = 2 ∧
    adabound_after_two_calls.step.getD 1 0 = 0 ∧
    adabound_after_two_calls.config_step.getD 0 0 = 0 ∧ (0:Nat) ≠ 2 := by
  refine ⟨rfl, rfl, rfl, by decide⟩

/-- C8: when neither the channel view nor the layer view sees its maximal
absolute cosine similarity fall below `delta / sqrt(view width)`, AdamP's
`projection` returns the perturbation unchanged together with a weight-decay
ratio of 1. -/
theorem projection_unchanged_when_aligned (p grad perturb : Tensor2)
    (delta wd_ratio eps : ℝ)
    (hc : ¬ reduce_max ((cosine_similarity (channel_view grad) (channel_view p) eps).map
        (fun c => |c|)) < delta / Real.sqrt ((view_width (channel_view p) : ℕ) : ℝ))
    (hl : ¬ reduce_max ((cosine_similarity (layer_view grad) (layer_view p) eps).map
        (fun c => |c|)) < delta / Real.sqrt ((view_width (layer_view p) : ℕ) : ℝ)) :
    projection p grad perturb delta wd_ratio eps = (perturb, 1) := by
  unfold projection
  rw [if_neg hc, if_neg hl]

/-- Witness for C8 on a 1-by-1 parameter aligned with its gradient. -/
theorem projection_unchanged_when_aligned_witness :
    projection [[1]] [[1]] [[5]] (1/2) (1/10) 1 = ([[5]], 1) :=
  projection_unchanged_when_aligned [[1]] [[1]] [[5]] (1/2) (1/10) 1
    (by
      have hclip : AdamP.clip (1:ℝ) 1 = 1 := by
        unfold AdamP.clip clip_by_value float32_max
        rw [max_self]
        exact min_eq_left (by norm_num)
      norm_num [cosine_similarity, channel_view, dot, cos_denominator, view_width,
        reduce_max, hclip, Real.sqrt_one])
    (by
      have hclip : AdamP.clip (1:ℝ) 1 = 1 := by
        unfold AdamP.clip clip_by_value float32_max
        rw [max_self]
        exact min_eq_left (by norm_num)
      norm_num [cosine_similarity, layer_view, dot, cos_denominator, view_width,
        reduce_max, hclip, Real.sqrt_one])
